import Mathlib

/-!
Verification of the ChaPT_frontend client-side behavior layer.

This file shallowly embeds the two stateful UI controllers of the repository:

* the gallery carousel (`src/scripts/gallery.js`): a current-slide index with
  wrap-around navigation driven by `goToSlide` / `nextSlide` / `prevSlide`,
  keyboard arrows, dot clicks and touch swipes (`handleSwipe`);
* the FAQ accordion (`script.js`, module 5): per-item open/closed state with
  animated height transitions, `click` handlers on the summary element and
  one-shot `transitionend` listeners on the content element.

JavaScript numbers that the embedded code compares and adds are modelled as
`Int` (indices, touch coordinates); pixel extents as `Nat`.  The DOM event
loop is modelled as explicit events applied to explicit states.
-/

namespace Gallery

/-- From `src/scripts/gallery.js`, `goToSlide` (lines 78-89):

    if (index < 0) { currentIndex = totalSlides - 1; }
    else if (index >= totalSlides) { currentIndex = 0; }
    else { currentIndex = index; }

Returns the new `currentIndex` for a carousel with `totalSlides` slides. -/
def goToSlide (totalSlides : Nat) (index : Int) : Int :=
  if index < 0 then (totalSlides : Int) - 1
  else if (totalSlides : Int) ≤ index then 0
  else index

/-- From `gallery.js` lines 94-96: `nextSlide() { goToSlide(currentIndex + 1); }` -/
def nextSlide (totalSlides : Nat) (currentIndex : Int) : Int :=
  goToSlide totalSlides (currentIndex + 1)

/-- From `gallery.js` lines 101-103: `prevSlide() { goToSlide(currentIndex - 1); }` -/
def prevSlide (totalSlides : Nat) (currentIndex : Int) : Int :=
  goToSlide totalSlides (currentIndex - 1)

/-- From `gallery.js`, `handleSwipe` (lines 150-161), with the module-level
`touchStartX` / `touchEndX` captured at `touchstart` / `touchend`:

    const swipeThreshold = 50;
    const diff = touchStartX - touchEndX;
    if (Math.abs(diff) > swipeThreshold) {
      if (diff > 0) { nextSlide(); } else { prevSlide(); }
    }

Returns the `currentIndex` after the gesture. -/
def handleSwipe (totalSlides : Nat) (currentIndex touchStartX touchEndX : Int) : Int :=
  let diff := touchStartX - touchEndX
  if 50 < |diff| then
    if 0 < diff then nextSlide totalSlides currentIndex
    else prevSlide totalSlides currentIndex
  else currentIndex

/-- The user-driven carousel operations wired up in `gallery.js`:
dot clicks call `goToSlide i` for the dot's own index `i` (line 57), the
prev/next buttons call `prevSlide` / `nextSlide` (lines 109-115), `keydown`
maps ArrowLeft / ArrowRight to `prevSlide` / `nextSlide` and ignores other
keys (lines 118-124), and a completed touch gesture runs `handleSwipe`
(lines 130-161). -/
inductive Event where
  | dotClick (i : Int)
  | prevClick
  | nextClick
  | keydown (key : String)
  | swipe (touchStartX touchEndX : Int)
deriving Repr, DecidableEq

/-- One carousel event applied to the current index, exactly as the listeners
in `gallery.js` dispatch to `goToSlide` / `nextSlide` / `prevSlide` /
`handleSwipe`. -/
def step (totalSlides : Nat) (currentIndex : Int) : Event → Int
  | .dotClick i => goToSlide totalSlides i
  | .prevClick => prevSlide totalSlides currentIndex
  | .nextClick => nextSlide totalSlides currentIndex
  | .keydown key =>
      if key = "ArrowLeft" then prevSlide totalSlides currentIndex
      else if key = "ArrowRight" then nextSlide totalSlides currentIndex
      else currentIndex
  | .swipe s e => handleSwipe totalSlides currentIndex s e

/-- `let currentIndex = 0;` (`gallery.js` line 43). -/
def initialIndex : Int := 0

/-- The index reached from startup after a sequence of user events. -/
def run (totalSlides : Nat) (events : List Event) : Int :=
  events.foldl (step totalSlides) initialIndex

end Gallery

namespace Gallery

theorem goToSlide_in_range (totalSlides : Nat) (index : Int)
    (hn : 1 ≤ totalSlides) :
    0 ≤ goToSlide totalSlides index ∧ goToSlide totalSlides index < totalSlides := by
  unfold goToSlide
  split
  · omega
  · split <;> omega

theorem nextSlide_eq_emod (n : Nat) (i : Int) (hi : 0 ≤ i) (hi2 : i < n) :
    nextSlide n i = (i + 1) % (n : Int) := by
  unfold nextSlide goToSlide
  split
  · exfalso; omega
  · split
    · have h : i + 1 = (n : Int) := by omega
      rw [h, Int.emod_self]
    · rw [Int.emod_eq_of_lt (by omega) (by omega)]

theorem step_in_range (n : Nat) (i : Int) (e : Event) (hn : 1 ≤ n)
    (hi : 0 ≤ i ∧ i < n) : 0 ≤ step n i e ∧ step n i e < n := by
  cases e with
  | dotClick j => exact goToSlide_in_range n j hn
  | prevClick => exact goToSlide_in_range n _ hn
  | nextClick => exact goToSlide_in_range n _ hn
  | keydown key =>
      simp only [step]
      split
      · exact goToSlide_in_range n _ hn
      · split
        · exact goToSlide_in_range n _ hn
        · exact hi
  | swipe s e =>
      simp only [step, handleSwipe]
      split
      · split
        · exact goToSlide_in_range n _ hn
        · exact goToSlide_in_range n _ hn
      · exact hi

/-- C1 counterexample: the claim says `goTo(i)` always leaves `currentIndex`
equal to the sign-correct modulus `i mod totalSlides`, but on a 5-slide
carousel `goToSlide` maps `-2` to `4` (the last slide), while the
mathematical modulus `(-2) mod 5` is `3`. -/
theorem goToSlide_not_emod_counterexample :
    Gallery.goToSlide 5 (-2) = 4 ∧ (-2 : Int) % 5 = 3 ∧
      Gallery.goToSlide 5 (-2) ≠ (-2 : Int) % 5 := by
  refine ⟨by decide, by decide, by decide⟩

/-- C1 (amended): `goToSlide` wraps any negative index to the last slide and
any index at or past `totalSlides` to the first slide; this agrees with the
sign-correct modulus `i mod totalSlides` exactly on the range
`-1 ≤ i ≤ totalSlides` (which contains every index that `nextSlide`,
`prevSlide` and the dot clicks can produce, and in particular the spec's
examples `goTo(-1) = 4` and `goTo(5) = 0` on five slides). -/
theorem goToSlide_emod_on_reachable (n : Nat) (i : Int) (hn : 1 ≤ n)
    (h1 : -1 ≤ i) (h2 : i ≤ n) : goToSlide n i = i % (n : Int) := by
  unfold goToSlide
  split
  · have hi : i = -1 := by omega
    subst hi
    have h3 : ((n : Int) - 1) % (n : Int) = (-1 : Int) % (n : Int) := by
      rw [show ((n : Int) - 1) = -1 + (n : Int) * 1 by ring]
      exact Int.add_mul_emod_self_left (-1) ((n : Int)) 1
    rw [← h3, Int.emod_eq_of_lt (by omega) (by omega)]
  · split
    · have hi : i = (n : Int) := by omega
      rw [hi, Int.emod_self]
    · rw [Int.emod_eq_of_lt (by omega) (by omega)]

/-- C1 witness: the amended statement at the spec's own examples: on a
5-slide carousel `goTo(-1)` yields index 4 and `goTo(5)` yields index 0. -/
theorem goToSlide_emod_on_reachable_witness :
    Gallery.goToSlide 5 (-1) = 4 ∧ Gallery.goToSlide 5 5 = 0 := by
  constructor
  · have h := goToSlide_emod_on_reachable 5 (-1) (by decide) (by decide) (by decide)
    rw [h]; decide
  · have h := goToSlide_emod_on_reachable 5 5 (by decide) (by decide) (by decide)
    rw [h]; decide

/-- C3: a completed touch gesture with displacement `diff = startX - endX`
exceeding the 50 px threshold runs `nextSlide` when the swipe is leftward
(`startX > endX`) and `prevSlide` when rightward; displacement strictly
below the threshold leaves `currentIndex` unchanged; a 60 px leftward swipe
advances exactly one slide forward (to `(i + 1) mod totalSlides`). -/
theorem handleSwipe_threshold (n : Nat) (i s e : Int)
    (h0 : 0 ≤ i) (h1 : i < n) :
    (50 < s - e → handleSwipe n i s e = nextSlide n i) ∧
    (50 < e - s → handleSwipe n i s e = prevSlide n i) ∧
    (|s - e| < 50 → handleSwipe n i s e = i) ∧
    (s - e = 60 → handleSwipe n i s e = (i + 1) % (n : Int)) := by
  refine ⟨fun h => ?_, fun h => ?_, fun h => ?_, fun h => ?_⟩
  · unfold handleSwipe
    rw [if_pos (lt_of_lt_of_le h (le_abs_self _)), if_pos (by omega)]
  · unfold handleSwipe
    rw [if_pos (by have hx := neg_le_abs (s - e); omega), if_neg (by omega)]
  · unfold handleSwipe
    rw [if_neg (by omega)]
  · unfold handleSwipe
    rw [if_pos (by have hx := le_abs_self (s - e); omega), if_pos (by omega)]
    exact nextSlide_eq_emod n i h0 h1

/-- C3 witness: on a 5-slide carousel at index 1, a swipe from x = 160 to
x = 100 (60 px leftward) lands on slide 2, and a swipe from x = 140 to
x = 100 (40 px, below threshold) is a no-op. -/
theorem handleSwipe_threshold_witness :
    Gallery.handleSwipe 5 1 160 100 = (1 + 1) % (5 : Int) ∧
      Gallery.handleSwipe 5 1 140 100 = 1 := by
  constructor
  · exact (handleSwipe_threshold 5 1 160 100 (by decide) (by decide)).2.2.2 (by decide)
  · exact (handleSwipe_threshold 5 1 140 100 (by decide) (by decide)).2.2.1 (by decide)

/-- C4: `currentIndex` starts at 0, and after any sequence of carousel
events (dot clicks with arbitrary integer argument, prev/next button
clicks, arbitrary keydown events, arbitrary touch swipes) it is still an
integer in `[0, totalSlides - 1]`, for every `totalSlides ≥ 1`. -/
theorem run_in_range (n : Nat) (events : List Event) (hn : 1 ≤ n) :
    initialIndex = 0 ∧ 0 ≤ run n events ∧ run n events < n := by
  have key : ∀ (evs : List Event) (s : Int), 0 ≤ s ∧ s < n →
      0 ≤ evs.foldl (step n) s ∧ evs.foldl (step n) s < n := by
    intro evs
    induction evs with
    | nil => intro s hs; simpa using hs
    | cons e evs ih =>
        intro s hs
        simpa using ih (step n s e) (step_in_range n s e hn hs)
  refine ⟨rfl, ?_⟩
  exact key events initialIndex ⟨le_refl 0, by simp [initialIndex]; omega⟩

/-- C4 witness: on a 5-slide carousel, the event sequence "next, leftward
swipe of 80 px, ArrowLeft, dot −3" keeps the index in `[0, 4]`. -/
theorem run_in_range_witness :
    Gallery.initialIndex = 0 ∧
      0 ≤ Gallery.run 5 [.nextClick, .swipe 100 20, .keydown "ArrowLeft", .dotClick (-3)] ∧
      Gallery.run 5 [.nextClick, .swipe 100 20, .keydown "ArrowLeft", .dotClick (-3)] < 5 :=
  run_in_range 5 [.nextClick, .swipe 100 20, .keydown "ArrowLeft", .dotClick (-3)]
    (by decide)

/-- C5: from any reachable index, `nextSlide` applied `totalSlides` times
returns `currentIndex` to its starting value. -/
theorem next_cyclic (n : Nat) (i : Int) (hn : 1 ≤ n) (h0 : 0 ≤ i)
    (h1 : i < n) : (nextSlide n)^[n] i = i := by
  have hiter : ∀ (k : Nat), (nextSlide n)^[k] i = (i + k) % (n : Int) := by
    intro k
    induction k with
    | zero =>
        simpa using (Int.emod_eq_of_lt h0 h1).symm
    | succ k ih =>
        rw [Function.iterate_succ_apply', ih]
        have hmod0 : 0 ≤ (i + k) % (n : Int) :=
          Int.emod_nonneg _ (by omega)
        have hmod1 : (i + k) % (n : Int) < (n : Int) :=
          Int.emod_lt_of_pos _ (by omega)
        rw [nextSlide_eq_emod n _ hmod0 hmod1, Int.emod_add_emod]
        push_cast
        ring_nf
  rw [hiter n, show i + (n : Int) = i + (n : Int) * 1 by ring,
    Int.add_mul_emod_self_left, Int.emod_eq_of_lt h0 h1]

/-- C5 witness: on a 5-slide carousel starting at index 2, five `next()`
calls return to index 2. -/
theorem next_cyclic_witness : (Gallery.nextSlide 5)^[5] 2 = 2 :=
  next_cyclic 5 2 (by decide) (by decide) (by decide)

/-- C9: on every reachable state, `nextSlide` and `prevSlide` are mutual
inverses: next after previous and previous after next both restore the
index, including at both wrap boundaries. -/
theorem next_prev_inverse (n : Nat) (i : Int) (hn : 1 ≤ n) (h0 : 0 ≤ i)
    (h1 : i < n) :
    nextSlide n (prevSlide n i) = i ∧ prevSlide n (nextSlide n i) = i := by
  constructor <;>
    (simp only [nextSlide, prevSlide, goToSlide]; split_ifs <;> omega)

/-- C9 witness: on a 5-slide carousel at the wrap boundary 0, previous then
next restores 0, and next then previous restores 0. -/
theorem next_prev_inverse_witness :
    Gallery.nextSlide 5 (Gallery.prevSlide 5 0) = 0 ∧
      Gallery.prevSlide 5 (Gallery.nextSlide 5 0) = 0 :=
  next_prev_inverse 5 0 (by decide) (by decide) (by decide)

/-- C10: a swipe whose absolute displacement is exactly 50 px does not move
the carousel: the threshold comparison `Math.abs(diff) > 50` is strict. -/
theorem handleSwipe_exact_threshold (n : Nat) (i s e : Int)
    (h : |s - e| = 50) : handleSwipe n i s e = i := by
  unfold handleSwipe
  rw [if_neg (by omega)]

/-- C10 witness: a swipe from x = 50 to x = 0 (exactly 50 px) on a 5-slide
carousel at index 2 leaves the index at 2. -/
theorem handleSwipe_exact_threshold_witness :
    |(50 : Int) - 0| = 50 ∧ Gallery.handleSwipe 5 2 50 0 = 2 :=
  ⟨by decide, handleSwipe_exact_threshold 5 2 50 0 (by decide)⟩

end Gallery

namespace Accordion

/-- The value of `content.style.height` as the accordion code writes it:
`"0"`, a pixel string `h + "px"`, or `"auto"`. -/
inductive HeightStyle where
  | zero
  | px (h : Nat)
  | auto
deriving Repr, DecidableEq

/-- The two one-shot `transitionend` listeners the summary click handler
attaches (`script.js` lines 303-310 and 319-326): the opening branch's
listener sets `content.style.height = "auto"`, the closing branch's
listener sets `item.open = false`. -/
inductive Callback where
  | setAuto
  | setClosed
deriving Repr, DecidableEq

/-- One FAQ accordion item: the `<details>` element's `open` attribute, the
content element's inline height style, and the `transitionend` listeners
currently attached to the content element, in attachment order. -/
structure ItemState where
  isOpen : Bool
  height : HeightStyle
  pending : List Callback
deriving Repr, DecidableEq

/-- Item initialization (`script.js` line 292):
`content.style.height = item.open ? content.scrollHeight + "px" : "0";`
The `open` attribute is left as the markup set it, no `transitionend`
listener is attached, and no transition is started. -/
def initItem (openAttr : Bool) (scrollHeight : Nat) : ItemState :=
  { isOpen := openAttr
    height := if openAttr then .px scrollHeight else .zero
    pending := [] }

/-- The summary `click` handler (`script.js` lines 294-328), as the
synchronous state update it performs; `scrollHeight` is the content's
measured natural extent at click time.

Closing branch (`item.open` true): height is set to the pixel snapshot,
reflowed, then set to `"0"`, and a one-shot `transitionend` listener that
will perform `item.open = false` is attached; `item.open` itself is not
touched here.  Opening branch: `item.open = true` at once, height is
driven from `"0"` to the pixel target, and a one-shot listener that will
set the height to `"auto"` is attached.  In both branches the listener is
appended: the handler never removes a still-pending listener from an
earlier animation before attaching the new one. -/
def click (scrollHeight : Nat) (s : ItemState) : ItemState :=
  if s.isOpen then
    { s with height := .zero, pending := s.pending ++ [.setClosed] }
  else
    { isOpen := true, height := .px scrollHeight, pending := s.pending ++ [.setAuto] }

/-- Effect of one `transitionend` listener body on the item. -/
def runCallback (s : ItemState) : Callback → ItemState
  | .setAuto => { s with height := .auto }
  | .setClosed => { s with isOpen := false }

/-- A `transitionend` event fired on the content element when a height
transition completes: the DOM dispatches it to every listener attached at
that moment, in attachment order, and each listener is one-shot
(`{ once: true }` plus the `removeEventListener` in its body), so all of
them are detached after this dispatch. -/
def transitionEnd (s : ItemState) : ItemState :=
  s.pending.foldl runCallback { s with pending := [] }

end Accordion

namespace Accordion

/-- C2 (failing run): item initially closed with natural extent 100 px;
click, then a second click before any `transitionend` has fired, then the
collapse transition completes.  Two logical toggles do net to closed
(`isOpen = false`), but the stale listener attached by the first (opening)
click is still attached when the collapse's `transitionend` fires, runs
first, and overrides the height the second click set to `"0"` with
`"auto"` — the final content height is not the extent 0 the claim
requires. -/
theorem double_click_stale_callback :
    (transitionEnd (click 100 (click 100 (initItem false 100)))).isOpen = false ∧
    (transitionEnd (click 100 (click 100 (initItem false 100)))).height = HeightStyle.auto ∧
    (transitionEnd (click 100 (click 100 (initItem false 100)))).height ≠ HeightStyle.zero := by
  decide

/-- C6: toggling an open item closed does not clear the `open` attribute
during the collapse: right after the click the flag is still `true` (and
the height target is `"0"`), and the flag becomes `false` exactly when the
transition-completion listener runs. -/
theorem close_marks_closed_only_at_completion (scrollHeight : Nat)
    (s : ItemState) (hopen : s.isOpen = true) (hp : s.pending = []) :
    (click scrollHeight s).isOpen = true ∧
    (click scrollHeight s).height = HeightStyle.zero ∧
    (transitionEnd (click scrollHeight s)).isOpen = false := by
  simp [click, hopen, hp, transitionEnd, runCallback]

/-- C6 witness: an item open at 100 px natural extent, with no pending
listener, is still marked open right after the closing click and marked
closed after the transition completes. -/
theorem close_marks_closed_only_at_completion_witness :
    (initItem true 100).isOpen = true ∧ (initItem true 100).pending = [] ∧
    ((click 100 (initItem true 100)).isOpen = true ∧
     (click 100 (initItem true 100)).height = HeightStyle.zero ∧
     (transitionEnd (click 100 (initItem true 100))).isOpen = false) :=
  ⟨by decide, by decide,
    close_marks_closed_only_at_completion 100 (initItem true 100) (by decide) (by decide)⟩

/-- C7: an item whose markup carries the `open` attribute initializes with
`isOpen = true`, content height equal to its measured natural extent, and
no attached transition listener (no animation); an item not marked open
initializes closed with content height `"0"` and no listener. -/
theorem init_respects_open_attr (scrollHeight : Nat) :
    (initItem true scrollHeight).isOpen = true ∧
    (initItem true scrollHeight).height = HeightStyle.px scrollHeight ∧
    (initItem true scrollHeight).pending = [] ∧
    (initItem false scrollHeight).isOpen = false ∧
    (initItem false scrollHeight).height = HeightStyle.zero ∧
    (initItem false scrollHeight).pending = [] := by
  simp [initItem]

end Accordion

namespace Setup

/-- What one `.accordion-item` element offers to the initializer: whether
`item.querySelector("summary")` and
`item.querySelector(".accordion-content")` find their elements, the
markup's `open` attribute, and the content's measured `scrollHeight`. -/
structure ItemMarkup where
  hasSummary : Bool
  hasContent : Bool
  openAttr : Bool
  scrollHeight : Nat
deriving Repr, DecidableEq

/-- Reading `content.scrollHeight`: a JavaScript property access on the
`querySelector` result, which throws a `TypeError` when the element is
absent (`querySelector` returned `null`). -/
def readScrollHeight (m : ItemMarkup) : Except String Nat :=
  if m.hasContent then .ok m.scrollHeight
  else .error "TypeError: null content"

/-- Initialization of one accordion item inside the `forEach` callback
(`script.js` lines 285-292): the guard `if (!summary || !content) return;`
makes the callback return early — the item is skipped (`none`) — before
any property of the missing elements is touched; otherwise the item is set
up from its markup. -/
def setupItem (m : ItemMarkup) : Except String (Option Accordion.ItemState) :=
  if !m.hasSummary || !m.hasContent then .ok none
  else
    match readScrollHeight m with
    | .error msg => .error msg
    | .ok h => .ok (some (Accordion.initItem m.openAttr h))

/-- `accordionItems.forEach(...)`: items are initialized in document order;
an exception escaping one callback would abort the traversal and
propagate. -/
def setupItems : List ItemMarkup → Except String (List (Option Accordion.ItemState))
  | [] => .ok []
  | m :: ms =>
      match setupItem m with
      | .error msg => .error msg
      | .ok r =>
          match setupItems ms with
          | .error msg => .error msg
          | .ok rs => .ok (r :: rs)

/-- What the gallery IIFE finds in the document (`gallery.js` lines
31-41): whether `.gallery-track` exists, and how many `.gallery-slide`
elements there are. -/
structure CarouselMarkup where
  hasTrack : Bool
  numSlides : Nat
deriving Repr, DecidableEq

/-- Carousel initialization guard (`gallery.js` line 41):
`if (!track || slides.length === 0) return;` — when it fires, the IIFE
returns before `currentIndex` is created, dots are built or any listener
is attached, so the controller is inert (`none`); otherwise the carousel
starts at `currentIndex = 0`. -/
def setupCarousel (c : CarouselMarkup) : Option Int :=
  if !c.hasTrack || c.numSlides == 0 then none
  else some Gallery.initialIndex

end Setup

namespace Setup

/-- C8: initializing any list of accordion items never surfaces an error:
each malformed item (missing summary or content) is skipped to `none` by
the guard before any missing element is dereferenced, and every other
item's initialization is exactly its own `initItem`, independent of the
malformed ones; and a carousel whose markup lacks the track element or has
zero slides initializes to the inert controller `none`. -/
theorem malformed_markup_inert (ms : List ItemMarkup) (c : CarouselMarkup)
    (hc : c.hasTrack = false ∨ c.numSlides = 0) :
    setupItems ms = .ok (ms.map fun m =>
      if m.hasSummary && m.hasContent then
        some (Accordion.initItem m.openAttr m.scrollHeight)
      else none) ∧
    setupCarousel c = none := by
  constructor
  · induction ms with
    | nil => rfl
    | cons m ms ih =>
        cases hS : m.hasSummary <;> cases hC : m.hasContent <;>
          simp [setupItems, setupItem, readScrollHeight, hS, hC, ih]
  · rcases hc with h | h <;> simp [setupCarousel, h]

/-- C8 witness: a well-formed item, then one missing its content element,
then another well-formed item: the middle one is skipped, the outer two
initialize normally, no error is raised; and a carousel markup with a
track but zero slides is inert. -/
theorem malformed_markup_inert_witness :
    ((⟨false, 0⟩ : CarouselMarkup).hasTrack = false ∨ (⟨false, 0⟩ : CarouselMarkup).numSlides = 0) ∧
    (setupItems [⟨true, true, true, 80⟩, ⟨true, false, false, 40⟩, ⟨true, true, false, 60⟩] =
      .ok [some (Accordion.initItem true 80), none, some (Accordion.initItem false 60)] ∧
     setupCarousel ⟨false, 0⟩ = none) := by
  constructor
  · exact Or.inl rfl
  · have h := malformed_markup_inert
      [⟨true, true, true, 80⟩, ⟨true, false, false, 40⟩, ⟨true, true, false, 60⟩]
      ⟨false, 0⟩ (Or.inl rfl)
    exact ⟨by rw [h.1]; rfl, h.2⟩

end Setup
